import Mathlib

set_option maxHeartbeats 1000000

/-
Verification of the dewarping engine in flatten-image/app/dewarper.cpp
(header flatten-image/app/dewarper.h).

Shallow embedding conventions:
- C++ `float` arithmetic is modelled over ℝ (trigonometric functions are
  Mathlib's Real.sin / Real.cos / Real.tan / Real.arccos; `std::atan2` is
  modelled by the case-split definition `atan2` below, matching the C
  standard's quadrant convention).
- `unsigned int` pixel dimensions and loop indices are ℕ, cast to ℝ where
  the C++ code converts them to float.
- The two cv::Mat grids map_x_ / map_y_ hold one float each per pixel and
  are always written together, so they are modelled as a single grid of
  pairs; the out-of-bounds sentinel `-1.0f` written to both grids becomes
  the pair (-1, -1).
- cv::cvtColor and cv::remap are external OpenCV library calls, not code
  of this repository; `process` abstracts the produced frame by the lookup
  table it was sampled through.
-/

namespace FlattenImage

/-- Lens model tags, from `enum class LensType` in dewarper.h. -/
inductive LensType where
  | FISHEYE
  | DUAL_FISHEYE
  | PANORAMIC
  deriving DecidableEq, Repr

/-- Projection mode tags, from `enum class ProjectionType` in dewarper.h. -/
inductive ProjectionType where
  | EQUIRECTANGULAR
  | RECTILINEAR
  | CYLINDRICAL
  | FISHEYE_UNDISTORT
  deriving DecidableEq, Repr

/-- `Dewarper::parse_lens_type` (dewarper.cpp): recognizes "dual_fisheye"
and "panoramic"; every other token falls through to FISHEYE. -/
def parse_lens_type (s : String) : LensType :=
  if s = "dual_fisheye" then LensType.DUAL_FISHEYE
  else if s = "panoramic" then LensType.PANORAMIC
  else LensType.FISHEYE

/-- `Dewarper::parse_projection_type` (dewarper.cpp): recognizes
"rectilinear", "cylindrical" and "fisheye_undistort"; every other token
falls through to FISHEYE_UNDISTORT. -/
def parse_projection_type (s : String) : ProjectionType :=
  if s = "rectilinear" then ProjectionType.RECTILINEAR
  else if s = "cylindrical" then ProjectionType.CYLINDRICAL
  else if s = "fisheye_undistort" then ProjectionType.FISHEYE_UNDISTORT
  else ProjectionType.FISHEYE_UNDISTORT

/-- `struct DewarperConfig` (dewarper.h). Float fields are modelled as ℝ,
unsigned dimensions as ℕ. -/
structure DewarperConfig where
  lens_type : LensType
  projection : ProjectionType
  input_fov : ℝ
  input_width : ℕ
  input_height : ℕ
  output_width : ℕ
  output_height : ℕ
  center_x : ℝ
  center_y : ℝ
  pan_angle : ℝ
  tilt_angle : ℝ
  rectilinear_fov : ℝ
  focal_length : ℝ
  k1 : ℝ
  k2 : ℝ
  k3 : ℝ
  k4 : ℝ
  scale : ℝ

noncomputable section

/-- The member-initializer defaults of `struct DewarperConfig` (dewarper.h
lines 27-46). -/
def defaultConfig : DewarperConfig where
  lens_type := LensType.FISHEYE
  projection := ProjectionType.FISHEYE_UNDISTORT
  input_fov := 180
  input_width := 0
  input_height := 0
  output_width := 1920
  output_height := 1920
  center_x := 0.5
  center_y := 0.5
  pan_angle := 0
  tilt_angle := 0
  rectilinear_fov := 90
  focal_length := 960
  k1 := 0
  k2 := 0
  k3 := 0
  k4 := 0
  scale := 0.5

/-- C's `atan2(y, x)`: quadrant-aware arctangent, by the standard case
split. Only its (x, y) = (0, 0) junk value matters nowhere in the claims;
it appears symbolically in the azimuth phi of each builder. -/
def atan2 (y x : ℝ) : ℝ :=
  if 0 < x then Real.arctan (y / x)
  else if x < 0 then
    if 0 ≤ y then Real.arctan (y / x) + Real.pi
    else Real.arctan (y / x) - Real.pi
  else
    if 0 < y then Real.pi / 2
    else if y < 0 then -(Real.pi / 2)
    else 0

/-- The sentinel the builders write to both grids for culled pixels:
`map_x_ = -1.0f; map_y_ = -1.0f` as a pair. -/
def sentinel : ℝ × ℝ := (-1, -1)

/-- `Dewarper::build_equirectangular_map` (dewarper.cpp lines 94-136),
restricted to one output pixel (x, y): the value the loop body stores in
(map_x_, map_y_) at that pixel. There is no field-of-view cull branch. -/
def equirectangularPixel (cfg : DewarperConfig) (x y : ℕ) : ℝ × ℝ :=
  let cx : ℝ := cfg.center_x * cfg.input_width
  let cy : ℝ := cfg.center_y * cfg.input_height
  let fov_rad : ℝ := cfg.input_fov * Real.pi / 180
  let radius : ℝ := (min cfg.input_width cfg.input_height : ℕ) / 2
  let pan_rad : ℝ := cfg.pan_angle * Real.pi / 180
  let tilt_rad : ℝ := cfg.tilt_angle * Real.pi / 180
  let norm_x : ℝ := 2 * (x : ℝ) / cfg.output_width - 1
  let norm_y : ℝ := 2 * (y : ℝ) / cfg.output_height - 1
  let longitude : ℝ := norm_x * Real.pi + pan_rad
  let latitude : ℝ := norm_y * Real.pi / 2 + tilt_rad
  let cart_x : ℝ := Real.cos latitude * Real.sin longitude
  let cart_y : ℝ := Real.sin latitude
  let cart_z : ℝ := Real.cos latitude * Real.cos longitude
  let theta : ℝ := Real.arccos cart_z
  let phi : ℝ := atan2 cart_y cart_x
  let r : ℝ := theta / (fov_rad / 2) * radius
  (cx + r * Real.cos phi, cy + r * Real.sin phi)

/-- `Dewarper::build_rectilinear_map` (dewarper.cpp lines 138-208),
restricted to one output pixel (x, y). -/
def rectilinearPixel (cfg : DewarperConfig) (x y : ℕ) : ℝ × ℝ :=
  let cx : ℝ := cfg.center_x * cfg.input_width
  let cy : ℝ := cfg.center_y * cfg.input_height
  let fov_rad : ℝ := cfg.input_fov * Real.pi / 180
  let radius : ℝ := (min cfg.input_width cfg.input_height : ℕ) / 2
  let out_fov_rad : ℝ := cfg.rectilinear_fov * Real.pi / 180
  let pan_rad : ℝ := cfg.pan_angle * Real.pi / 180
  let tilt_rad : ℝ := cfg.tilt_angle * Real.pi / 180
  let focal : ℝ := cfg.output_width / (2 * Real.tan (out_fov_rad / 2))
  let norm_x : ℝ := ((x : ℝ) - cfg.output_width / 2) / focal
  let norm_y : ℝ := ((y : ℝ) - cfg.output_height / 2) / focal
  let ray_x0 : ℝ := norm_x
  let ray_y0 : ℝ := norm_y
  let ray_z0 : ℝ := 1
  let cos_pan : ℝ := Real.cos pan_rad
  let sin_pan : ℝ := Real.sin pan_rad
  let ray_x1 : ℝ := ray_x0 * cos_pan + ray_z0 * sin_pan
  let ray_z1 : ℝ := -ray_x0 * sin_pan + ray_z0 * cos_pan
  let cos_tilt : ℝ := Real.cos tilt_rad
  let sin_tilt : ℝ := Real.sin tilt_rad
  let ray_y2 : ℝ := ray_y0 * cos_tilt - ray_z1 * sin_tilt
  let ray_z2 : ℝ := ray_y0 * sin_tilt + ray_z1 * cos_tilt
  let ray_len : ℝ := Real.sqrt (ray_x1 * ray_x1 + ray_y2 * ray_y2 + ray_z2 * ray_z2)
  let ray_x : ℝ := ray_x1 / ray_len
  let ray_y : ℝ := ray_y2 / ray_len
  let ray_z : ℝ := ray_z2 / ray_len
  let theta : ℝ := Real.arccos ray_z
  let phi : ℝ := atan2 ray_y ray_x
  if fov_rad / 2 < theta then sentinel
  else
    let r : ℝ := theta / (fov_rad / 2) * radius
    (cx + r * Real.cos phi, cy + r * Real.sin phi)

/-- `Dewarper::build_cylindrical_map` (dewarper.cpp lines 210-264),
restricted to one output pixel (x, y). -/
def cylindricalPixel (cfg : DewarperConfig) (x y : ℕ) : ℝ × ℝ :=
  let cx : ℝ := cfg.center_x * cfg.input_width
  let cy : ℝ := cfg.center_y * cfg.input_height
  let fov_rad : ℝ := cfg.input_fov * Real.pi / 180
  let radius : ℝ := (min cfg.input_width cfg.input_height : ℕ) / 2
  let pan_rad : ℝ := cfg.pan_angle * Real.pi / 180
  let tilt_rad : ℝ := cfg.tilt_angle * Real.pi / 180
  let norm_x : ℝ := 2 * (x : ℝ) / cfg.output_width - 1
  let norm_y : ℝ := 2 * (y : ℝ) / cfg.output_height - 1
  let longitude : ℝ := norm_x * Real.pi + pan_rad
  let vertical : ℝ := norm_y * (fov_rad / 2) + tilt_rad
  let ray_x0 : ℝ := Real.sin longitude
  let ray_y0 : ℝ := Real.tan vertical
  let ray_z0 : ℝ := Real.cos longitude
  let ray_len : ℝ := Real.sqrt (ray_x0 * ray_x0 + ray_y0 * ray_y0 + ray_z0 * ray_z0)
  let ray_x : ℝ := ray_x0 / ray_len
  let ray_y : ℝ := ray_y0 / ray_len
  let ray_z : ℝ := ray_z0 / ray_len
  let theta : ℝ := Real.arccos ray_z
  let phi : ℝ := atan2 ray_y ray_x
  if fov_rad / 2 < theta then sentinel
  else
    let r : ℝ := theta / (fov_rad / 2) * radius
    (cx + r * Real.cos phi, cy + r * Real.sin phi)

/-- Normalized camera x-offset `x_out` of one output pixel in
`Dewarper::build_fisheye_undistort_map` (dewarper.cpp line 299). -/
def undistortXOut (cfg : DewarperConfig) (u : ℕ) : ℝ :=
  ((u : ℝ) - cfg.center_x * cfg.input_width) / (cfg.focal_length * cfg.scale)

/-- Normalized camera y-offset `y_out` (dewarper.cpp line 300). -/
def undistortYOut (cfg : DewarperConfig) (v : ℕ) : ℝ :=
  ((v : ℝ) - cfg.center_y * cfg.input_height) / (cfg.focal_length * cfg.scale)

/-- Normalized radius `r_out` (= theta under the equidistant model) of one
output pixel (dewarper.cpp lines 310-311). -/
def undistortROut (cfg : DewarperConfig) (u v : ℕ) : ℝ :=
  Real.sqrt (undistortXOut cfg u * undistortXOut cfg u +
    undistortYOut cfg v * undistortYOut cfg v)

/-- Distorted angle `theta_d`, the odd distortion polynomial applied to
theta = r_out (dewarper.cpp lines 315-320). -/
def undistortThetaD (cfg : DewarperConfig) (u v : ℕ) : ℝ :=
  let theta : ℝ := undistortROut cfg u v
  let theta2 : ℝ := theta * theta
  let theta4 : ℝ := theta2 * theta2
  let theta6 : ℝ := theta4 * theta2
  let theta8 : ℝ := theta6 * theta2
  theta * (1 + cfg.k1 * theta2 + cfg.k2 * theta4 + cfg.k3 * theta6 + cfg.k4 * theta8)

/-- Guarded rescale factor `scale_d = (r_out > 1e-8f) ? theta_d / r_out :
1.0f` (dewarper.cpp line 323). -/
def undistortScaleD (cfg : DewarperConfig) (u v : ℕ) : ℝ :=
  if 1e-8 < undistortROut cfg u v then undistortThetaD cfg u v / undistortROut cfg u v
  else 1

/-- `Dewarper::build_fisheye_undistort_map` (dewarper.cpp lines 266-348),
restricted to one output pixel (u_out, v_out): the (u_in, v_in) pair the
loop body stores. The output optical center equals the input optical
center (cx_out = cx_in, cy_out = cy_in, lines 281-282). -/
def fisheyeUndistortPixel (cfg : DewarperConfig) (u v : ℕ) : ℝ × ℝ :=
  let f_in : ℝ := cfg.focal_length
  let cx_in : ℝ := cfg.center_x * cfg.input_width
  let cy_in : ℝ := cfg.center_y * cfg.input_height
  let x_dist : ℝ := undistortXOut cfg u * undistortScaleD cfg u v
  let y_dist : ℝ := undistortYOut cfg v * undistortScaleD cfg u v
  (f_in * x_dist + cx_in, f_in * y_dist + cy_in)

/-- One dense output grid of shape output_height × output_width, row y
holding the per-pixel values f x y for x = 0 .. output_width - 1. This is
the nested for-loop shape shared by all four builders. -/
def buildMap (cfg : DewarperConfig) (f : ℕ → ℕ → ℝ × ℝ) : List (List (ℝ × ℝ)) :=
  (List.range cfg.output_height).map fun y =>
    (List.range cfg.output_width).map fun x => f x y

/-- `Dewarper::build_lookup_tables` (dewarper.cpp lines 69-92): dispatch
on the projection tag, building the full grid for the current config. -/
def buildLookupTables (cfg : DewarperConfig) : List (List (ℝ × ℝ)) :=
  match cfg.projection with
  | ProjectionType.EQUIRECTANGULAR => buildMap cfg (equirectangularPixel cfg)
  | ProjectionType.RECTILINEAR => buildMap cfg (rectilinearPixel cfg)
  | ProjectionType.CYLINDRICAL => buildMap cfg (cylindricalPixel cfg)
  | ProjectionType.FISHEYE_UNDISTORT => buildMap cfg (fisheyeUndistortPixel cfg)

/-- The mutable state of a `Dewarper` instance (dewarper.h lines 77-81):
the stored config, the lookup-table grids, and the `initialized_` flag
(named initFlag here). -/
structure DewarperState where
  config : DewarperConfig
  table : List (List (ℝ × ℝ))
  initFlag : Bool

/-- `Dewarper::Dewarper()`: default-initialized config, empty grids,
`initialized_ = false` (dewarper.h line 81). -/
def initialState : DewarperState where
  config := defaultConfig
  table := []
  initFlag := false

namespace Dewarper

/-- `Dewarper::init` (dewarper.cpp lines 35-47): stores the config,
rebuilds the tables, sets the flag, and unconditionally returns true.
No validation of the configuration is performed. -/
def init (_s : DewarperState) (cfg : DewarperConfig) : DewarperState × Bool :=
  ({ config := cfg, table := buildLookupTables cfg, initFlag := true }, true)

/-- `Dewarper::update_config` (dewarper.cpp lines 49-53): stores the
config, rebuilds the tables, and unconditionally returns true. The
`initialized_` flag is untouched. -/
def update_config (s : DewarperState) (cfg : DewarperConfig) : DewarperState × Bool :=
  ({ s with config := cfg, table := buildLookupTables cfg }, true)

/-- `Dewarper::process` (dewarper.cpp lines 55-67): returns false (no
output written) when `initialized_` is unset; otherwise converts and
remaps through the current tables and returns true. cv::cvtColor and
cv::remap are OpenCV externals, so the produced frame is abstracted by
the table it was sampled through. -/
def process (s : DewarperState) : Bool × Option (List (List (ℝ × ℝ))) :=
  if s.initFlag then (true, some s.table) else (false, none)

end Dewarper

/-- One externally visible operation on a `Dewarper` instance. -/
inductive Op where
  | opInit (cfg : DewarperConfig)
  | opUpdate (cfg : DewarperConfig)
  | opProcess

/-- State left behind by one operation (process does not change the
engine state). -/
def applyOp (s : DewarperState) : Op → DewarperState
  | Op.opInit cfg => (Dewarper.init s cfg).1
  | Op.opUpdate cfg => (Dewarper.update_config s cfg).1
  | Op.opProcess => s

/-- Run a sequence of operations from a starting state. -/
def run (s : DewarperState) (ops : List Op) : DewarperState :=
  ops.foldl applyOp s

/-- Spec-side derived quantity: input field of view in radians (fovRad in
the spec). -/
def fovRadOf (cfg : DewarperConfig) : ℝ :=
  cfg.input_fov * Real.pi / 180

/-- Spec-side derived quantity: pan angle in radians. -/
def panRadOf (cfg : DewarperConfig) : ℝ :=
  cfg.pan_angle * Real.pi / 180

/-- Spec-side derived quantity: tilt angle in radians. -/
def tiltRadOf (cfg : DewarperConfig) : ℝ :=
  cfg.tilt_angle * Real.pi / 180

/-- Spec-side derived quantity: optical center x in input pixels. -/
def cxOf (cfg : DewarperConfig) : ℝ :=
  cfg.center_x * cfg.input_width

/-- Spec-side derived quantity: optical center y in input pixels. -/
def cyOf (cfg : DewarperConfig) : ℝ :=
  cfg.center_y * cfg.input_height

/-- Spec-side derived quantity: pixel radius of the full fisheye circle,
min(input width, input height) / 2. -/
def radiusOf (cfg : DewarperConfig) : ℝ :=
  (min cfg.input_width cfg.input_height : ℕ) / 2

/-- The sample coordinate the spec prescribes for a visible output pixel
of polar angle theta and azimuth phi: (cx + r·cos phi, cy + r·sin phi)
with r = (theta / (fovRad/2)) · radius. -/
def fisheyeSample (cfg : DewarperConfig) (theta phi : ℝ) : ℝ × ℝ :=
  (cxOf cfg + theta / (fovRadOf cfg / 2) * radiusOf cfg * Real.cos phi,
   cyOf cfg + theta / (fovRadOf cfg / 2) * radiusOf cfg * Real.sin phi)

/-- Spec-side polar angle of output pixel (x, y) in equirectangular mode:
longitude/latitude from the normalized pixel, direction
(cos lat · sin lon, sin lat, cos lat · cos lon), theta = arccos z. -/
def equirectangularTheta (cfg : DewarperConfig) (x y : ℕ) : ℝ :=
  let longitude : ℝ := (2 * (x : ℝ) / cfg.output_width - 1) * Real.pi + panRadOf cfg
  let latitude : ℝ := (2 * (y : ℝ) / cfg.output_height - 1) * Real.pi / 2 + tiltRadOf cfg
  Real.arccos (Real.cos latitude * Real.cos longitude)

/-- Spec-side azimuth of output pixel (x, y) in equirectangular mode:
phi = atan2(y, x) of the same direction. -/
def equirectangularPhi (cfg : DewarperConfig) (x y : ℕ) : ℝ :=
  let longitude : ℝ := (2 * (x : ℝ) / cfg.output_width - 1) * Real.pi + panRadOf cfg
  let latitude : ℝ := (2 * (y : ℝ) / cfg.output_height - 1) * Real.pi / 2 + tiltRadOf cfg
  atan2 (Real.sin latitude) (Real.cos latitude * Real.sin longitude)

/-- Spec-side polar angle of output pixel (x, y) in rectilinear mode: the
camera ray (normX, normY, 1), rotated by pan around the vertical axis and
then tilt around the horizontal axis, normalized; theta = arccos of its
z-component. -/
def rectilinearTheta (cfg : DewarperConfig) (x y : ℕ) : ℝ :=
  let focal : ℝ := cfg.output_width / (2 * Real.tan (cfg.rectilinear_fov * Real.pi / 180 / 2))
  let norm_x : ℝ := ((x : ℝ) - cfg.output_width / 2) / focal
  let norm_y : ℝ := ((y : ℝ) - cfg.output_height / 2) / focal
  let ray_x1 : ℝ := norm_x * Real.cos (panRadOf cfg) + 1 * Real.sin (panRadOf cfg)
  let ray_z1 : ℝ := -norm_x * Real.sin (panRadOf cfg) + 1 * Real.cos (panRadOf cfg)
  let ray_y2 : ℝ := norm_y * Real.cos (tiltRadOf cfg) - ray_z1 * Real.sin (tiltRadOf cfg)
  let ray_z2 : ℝ := norm_y * Real.sin (tiltRadOf cfg) + ray_z1 * Real.cos (tiltRadOf cfg)
  let ray_len : ℝ := Real.sqrt (ray_x1 * ray_x1 + ray_y2 * ray_y2 + ray_z2 * ray_z2)
  Real.arccos (ray_z2 / ray_len)

/-- Spec-side azimuth of output pixel (x, y) in rectilinear mode:
atan2 of the normalized ray's y and x components. -/
def rectilinearPhi (cfg : DewarperConfig) (x y : ℕ) : ℝ :=
  let focal : ℝ := cfg.output_width / (2 * Real.tan (cfg.rectilinear_fov * Real.pi / 180 / 2))
  let norm_x : ℝ := ((x : ℝ) - cfg.output_width / 2) / focal
  let norm_y : ℝ := ((y : ℝ) - cfg.output_height / 2) / focal
  let ray_x1 : ℝ := norm_x * Real.cos (panRadOf cfg) + 1 * Real.sin (panRadOf cfg)
  let ray_z1 : ℝ := -norm_x * Real.sin (panRadOf cfg) + 1 * Real.cos (panRadOf cfg)
  let ray_y2 : ℝ := norm_y * Real.cos (tiltRadOf cfg) - ray_z1 * Real.sin (tiltRadOf cfg)
  let ray_z2 : ℝ := norm_y * Real.sin (tiltRadOf cfg) + ray_z1 * Real.cos (tiltRadOf cfg)
  let ray_len : ℝ := Real.sqrt (ray_x1 * ray_x1 + ray_y2 * ray_y2 + ray_z2 * ray_z2)
  atan2 (ray_y2 / ray_len) (ray_x1 / ray_len)

/-- Spec-side polar angle of output pixel (x, y) in cylindrical mode: ray
(sin lon, tan vertical, cos lon), normalized; theta = arccos of its
z-component. -/
def cylindricalTheta (cfg : DewarperConfig) (x y : ℕ) : ℝ :=
  let longitude : ℝ := (2 * (x : ℝ) / cfg.output_width - 1) * Real.pi + panRadOf cfg
  let vertical : ℝ := (2 * (y : ℝ) / cfg.output_height - 1) * (fovRadOf cfg / 2) + tiltRadOf cfg
  let ray_len : ℝ := Real.sqrt (Real.sin longitude * Real.sin longitude +
    Real.tan vertical * Real.tan vertical + Real.cos longitude * Real.cos longitude)
  Real.arccos (Real.cos longitude / ray_len)

/-- Spec-side azimuth of output pixel (x, y) in cylindrical mode. -/
def cylindricalPhi (cfg : DewarperConfig) (x y : ℕ) : ℝ :=
  let longitude : ℝ := (2 * (x : ℝ) / cfg.output_width - 1) * Real.pi + panRadOf cfg
  let vertical : ℝ := (2 * (y : ℝ) / cfg.output_height - 1) * (fovRadOf cfg / 2) + tiltRadOf cfg
  let ray_len : ℝ := Real.sqrt (Real.sin longitude * Real.sin longitude +
    Real.tan vertical * Real.tan vertical + Real.cos longitude * Real.cos longitude)
  atan2 (Real.tan vertical / ray_len) (Real.sin longitude / ray_len)

/-- The per-pixel value the selected builder stores at output pixel
(x, y): the tagged-variant dispatch of build_lookup_tables, per pixel. -/
def projectionPixel (cfg : DewarperConfig) (x y : ℕ) : ℝ × ℝ :=
  match cfg.projection with
  | ProjectionType.EQUIRECTANGULAR => equirectangularPixel cfg x y
  | ProjectionType.RECTILINEAR => rectilinearPixel cfg x y
  | ProjectionType.CYLINDRICAL => cylindricalPixel cfg x y
  | ProjectionType.FISHEYE_UNDISTORT => fisheyeUndistortPixel cfg x y

/-- A configuration with zero output width (otherwise the header
defaults): degenerate geometry the spec says configure must reject. -/
def zeroWidthConfig : DewarperConfig :=
  { defaultConfig with output_width := 0 }

/-- A small concrete cylindrical configuration: 4×4 input and output,
180° field of view, centered optics, no pan/tilt. -/
def cylSmallConfig : DewarperConfig where
  lens_type := LensType.FISHEYE
  projection := ProjectionType.CYLINDRICAL
  input_fov := 180
  input_width := 4
  input_height := 4
  output_width := 4
  output_height := 4
  center_x := 0.5
  center_y := 0.5
  pan_angle := 0
  tilt_angle := 0
  rectilinear_fov := 90
  focal_length := 960
  k1 := 0
  k2 := 0
  k3 := 0
  k4 := 0
  scale := 0.5

/-- A concrete fisheye-undistort configuration with all four distortion
coefficients zero and the optical center at the image origin. -/
def undistortZeroKConfig : DewarperConfig where
  lens_type := LensType.FISHEYE
  projection := ProjectionType.FISHEYE_UNDISTORT
  input_fov := 180
  input_width := 8
  input_height := 8
  output_width := 8
  output_height := 8
  center_x := 0
  center_y := 0
  pan_angle := 0
  tilt_angle := 0
  rectilinear_fov := 90
  focal_length := 960
  k1 := 0
  k2 := 0
  k3 := 0
  k4 := 0
  scale := 0.5

/-- A concrete valid configuration (positive dimensions, field of view in
(0°, 360°], optical center inside [0,1]²), equirectangular mode. -/
def validSmallConfig : DewarperConfig where
  lens_type := LensType.FISHEYE
  projection := ProjectionType.EQUIRECTANGULAR
  input_fov := 180
  input_width := 2
  input_height := 2
  output_width := 4
  output_height := 3
  center_x := 0.5
  center_y := 0.5
  pan_angle := 0
  tilt_angle := 0
  rectilinear_fov := 90
  focal_length := 960
  k1 := 0
  k2 := 0
  k3 := 0
  k4 := 0
  scale := 0.5

end

/-- Helper: a run containing no init operation leaves the ready flag
unset, whatever other operations it contains. -/
theorem run_no_init_keeps_unready (ops : List Op) :
    ∀ s : DewarperState, s.initFlag = false → (∀ cfg, Op.opInit cfg ∉ ops) →
    (run s ops).initFlag = false := by
  induction ops with
  | nil =>
    intro s hs _
    exact hs
  | cons op rest ih =>
    intro s hs hno
    have hrest : ∀ cfg, Op.opInit cfg ∉ rest := by
      intro cfg hmem
      exact hno cfg (List.mem_cons_of_mem _ hmem)
    cases op with
    | opInit cfg =>
      exact absurd (List.mem_cons_self _ _) (hno cfg)
    | opUpdate cfg =>
      exact ih ({ s with config := cfg, table := buildLookupTables cfg }) hs hrest
    | opProcess =>
      exact ih s hs hrest

/-- Helper: once the ready flag is set, no operation clears it. -/
theorem run_keeps_ready (ops : List Op) :
    ∀ s : DewarperState, s.initFlag = true → (run s ops).initFlag = true := by
  induction ops with
  | nil =>
    intro s hs
    exact hs
  | cons op rest ih =>
    intro s hs
    cases op with
    | opInit cfg =>
      exact ih _ rfl
    | opUpdate cfg =>
      exact ih ({ s with config := cfg, table := buildLookupTables cfg }) hs
    | opProcess =>
      exact ih s hs

/-- Claim C1, counterexample: `init` on a configuration with zero output
width returns success (true), installs the degenerate configuration, and
marks the engine ready — it does not return failure, and the engine does
not remain in its previous not-ready state. `update_config` likewise
returns success. -/
theorem C1_counterexample :
    initialState.initFlag = false ∧
    (Dewarper.init initialState zeroWidthConfig).2 = true ∧
    (Dewarper.init initialState zeroWidthConfig).1.initFlag = true ∧
    (Dewarper.init initialState zeroWidthConfig).1.config.output_width = 0 ∧
    (Dewarper.update_config initialState zeroWidthConfig).2 = true ∧
    (Dewarper.update_config initialState zeroWidthConfig).1.config.output_width = 0 :=
  ⟨rfl, rfl, rfl, rfl, rfl, rfl⟩

/-- Claim C1, amended: `init` and `update_config` perform no validation at
all. For every configuration — including zero output width or height —
they install the configuration, synchronously rebuild the lookup table
for it, and return success; `init` additionally marks the engine ready,
and `update_config` leaves the ready flag as it was. The engine never
remains in its previous state. -/
theorem C1_configure_never_fails (s : DewarperState) (cfg : DewarperConfig) :
    (Dewarper.init s cfg).2 = true ∧
    (Dewarper.init s cfg).1.config = cfg ∧
    (Dewarper.init s cfg).1.table = buildLookupTables cfg ∧
    (Dewarper.init s cfg).1.initFlag = true ∧
    (Dewarper.update_config s cfg).2 = true ∧
    (Dewarper.update_config s cfg).1.config = cfg ∧
    (Dewarper.update_config s cfg).1.table = buildLookupTables cfg ∧
    (Dewarper.update_config s cfg).1.initFlag = s.initFlag :=
  ⟨rfl, rfl, rfl, rfl, rfl, rfl, rfl, rfl⟩

/-- Claim C2, counterexample: the token "equirectangular" is not in the
recognized set of `parse_projection_type`; it falls through to the
default and yields FISHEYE_UNDISTORT, not EQUIRECTANGULAR. -/
theorem C2_counterexample :
    parse_projection_type "equirectangular" = ProjectionType.FISHEYE_UNDISTORT ∧
    ProjectionType.FISHEYE_UNDISTORT ≠ ProjectionType.EQUIRECTANGULAR := by
  refine ⟨by decide, by decide⟩

/-- Claim C2, amended: `parse_projection_type` recognizes exactly
"rectilinear", "cylindrical" and "fisheye_undistort"; every other token —
including "equirectangular" — defaults to the fisheye-undistort
projection, so the equirectangular tag is unreachable from parsing.
`parse_lens_type` maps "dual_fisheye" and "panoramic" to their tags and
every other token to the plain-fisheye lens. -/
theorem C2_parse_tokens :
    parse_projection_type "rectilinear" = ProjectionType.RECTILINEAR ∧
    parse_projection_type "cylindrical" = ProjectionType.CYLINDRICAL ∧
    parse_projection_type "fisheye_undistort" = ProjectionType.FISHEYE_UNDISTORT ∧
    parse_lens_type "dual_fisheye" = LensType.DUAL_FISHEYE ∧
    parse_lens_type "panoramic" = LensType.PANORAMIC ∧
    (∀ s : String, s ≠ "rectilinear" → s ≠ "cylindrical" →
      parse_projection_type s = ProjectionType.FISHEYE_UNDISTORT) ∧
    (∀ s : String, s ≠ "dual_fisheye" → s ≠ "panoramic" →
      parse_lens_type s = LensType.FISHEYE) := by
  refine ⟨by decide, by decide, by decide, by decide, by decide, ?_, ?_⟩
  · intro s h1 h2
    unfold parse_projection_type
    rw [if_neg h1, if_neg h2]
    split
    · rfl
    · rfl
  · intro s h1 h2
    unfold parse_lens_type
    rw [if_neg h1, if_neg h2]

/-- Claim C2, witness: an arbitrary unrecognized token ("whatever")
defaults to the fisheye-undistort projection and the plain-fisheye
lens, by the amended theorem. -/
theorem C2_witness :
    parse_projection_type "whatever" = ProjectionType.FISHEYE_UNDISTORT ∧
    parse_lens_type "whatever" = LensType.FISHEYE :=
  ⟨C2_parse_tokens.2.2.2.2.2.1 "whatever" (by decide) (by decide),
    C2_parse_tokens.2.2.2.2.2.2 "whatever" (by decide) (by decide)⟩

/-- Claim C5: if no init operation has ever run — the engine constructed
not-ready, and any number of update_config / process calls since — then
`process` returns the not-ready failure (false) and produces no output,
on every such call. -/
theorem C5_process_not_ready (ops : List Op)
    (h : ∀ cfg, Op.opInit cfg ∉ ops) :
    Dewarper.process (run initialState ops) = (false, none) := by
  have hflag : (run initialState ops).initFlag = false :=
    run_no_init_keeps_unready ops initialState rfl h
  unfold Dewarper.process
  rw [hflag]
  simp

/-- Claim C5, witness: after an update_config and a process call but no
init, processing still reports not-ready and yields no frame. -/
theorem C5_witness :
    Dewarper.process (run initialState [Op.opUpdate defaultConfig, Op.opProcess]) =
      (false, none) := by
  refine C5_process_not_ready _ ?_
  intro cfg
  simp

/-- Claim C10: the ready flag is set by init and never cleared: after any
prefix of operations, one init, and any suffix of operations (including
further reconfigurations), the engine is still ready and `process` takes
the processing path, returning success and a frame sampled through the
current table — never the not-ready failure. -/
theorem C10_ready_is_permanent (ops1 : List Op) (cfg : DewarperConfig) (ops2 : List Op) :
    (run initialState (ops1 ++ Op.opInit cfg :: ops2)).initFlag = true ∧
    Dewarper.process (run initialState (ops1 ++ Op.opInit cfg :: ops2)) =
      (true, some (run initialState (ops1 ++ Op.opInit cfg :: ops2)).table) := by
  have h1 : (run initialState (ops1 ++ Op.opInit cfg :: ops2)).initFlag = true := by
    show ((ops1 ++ Op.opInit cfg :: ops2).foldl applyOp initialState).initFlag = true
    rw [List.foldl_append, List.foldl_cons]
    exact run_keeps_ready ops2 _ rfl
  refine ⟨h1, ?_⟩
  unfold Dewarper.process
  rw [h1]
  simp

/-- Claim C3, counterexample: the cylindrical builder does write the
out-of-bounds sentinel. On the concrete 4×4 configuration with a 180°
field of view, output pixel (x, y) = (0, 2) has longitude -π, so its view
ray points straight backwards (theta = π > fov/2 = π/2) and the builder
stores the sentinel in both grids. -/
theorem C3_counterexample :
    cylindricalPixel cylSmallConfig 0 2 = sentinel := by
  have hw : cylSmallConfig.output_width = 4 := rfl
  have hh : cylSmallConfig.output_height = 4 := rfl
  have hlon : (2 * ((0 : ℕ) : ℝ) / cylSmallConfig.output_width - 1) * Real.pi +
      panRadOf cylSmallConfig = -Real.pi := by
    have hp : panRadOf cylSmallConfig = 0 := by
      unfold panRadOf
      show (0 : ℝ) * Real.pi / 180 = 0
      ring
    rw [hp, hw]
    norm_num
  have hvert : (2 * ((2 : ℕ) : ℝ) / cylSmallConfig.output_height - 1) *
      (fovRadOf cylSmallConfig / 2) + tiltRadOf cylSmallConfig = 0 := by
    have ht : tiltRadOf cylSmallConfig = 0 := by
      unfold tiltRadOf
      show (0 : ℝ) * Real.pi / 180 = 0
      ring
    rw [ht, hh]
    norm_num
  have hfov : fovRadOf cylSmallConfig = Real.pi := by
    unfold fovRadOf
    show (180 : ℝ) * Real.pi / 180 = Real.pi
    ring
  have htheta : cylindricalTheta cylSmallConfig 0 2 = Real.pi := by
    unfold cylindricalTheta
    rw [hlon, hvert]
    simp [Real.sin_neg, Real.sin_pi, Real.cos_neg, Real.cos_pi, Real.tan_zero]
  have hcond : fovRadOf cylSmallConfig / 2 < cylindricalTheta cylSmallConfig 0 2 := by
    rw [hfov, htheta]
    exact half_lt_self Real.pi_pos
  calc cylindricalPixel cylSmallConfig 0 2
      = if fovRadOf cylSmallConfig / 2 < cylindricalTheta cylSmallConfig 0 2 then sentinel
        else fisheyeSample cylSmallConfig (cylindricalTheta cylSmallConfig 0 2)
          (cylindricalPhi cylSmallConfig 0 2) := rfl
    _ = sentinel := if_pos hcond

/-- Claim C3, amended: of the two wrapping modes only the equirectangular
builder never emits the sentinel — for every configuration and every
output pixel it stores the sample coordinate (cx + r·cos phi,
cy + r·sin phi) with r = (theta/(fovRad/2))·radius, unconditionally (it
has no field-of-view cull branch). The cylindrical builder, by contrast,
applies the same cull as the rectilinear one and does emit the sentinel
where its polar angle exceeds half the input field of view. -/
theorem C3_equirectangular_total (cfg : DewarperConfig) (x y : ℕ) :
    equirectangularPixel cfg x y =
      fisheyeSample cfg (equirectangularTheta cfg x y) (equirectangularPhi cfg x y) :=
  rfl

/-- Claim C4: in both the rectilinear and the cylindrical builder, every
output pixel's stored value is the out-of-bounds sentinel in both grids
exactly when the polar angle theta of the pixel's unit view ray exceeds
fovRad/2, and otherwise the sample coordinate (cx + r·cos phi,
cy + r·sin phi) with r = (theta/(fovRad/2))·radius. -/
theorem C4_fov_cull (cfg : DewarperConfig) (x y : ℕ) :
    (rectilinearPixel cfg x y =
      if fovRadOf cfg / 2 < rectilinearTheta cfg x y then sentinel
      else fisheyeSample cfg (rectilinearTheta cfg x y) (rectilinearPhi cfg x y)) ∧
    (cylindricalPixel cfg x y =
      if fovRadOf cfg / 2 < cylindricalTheta cfg x y then sentinel
      else fisheyeSample cfg (cylindricalTheta cfg x y) (cylindricalPhi cfg x y)) :=
  ⟨rfl, rfl⟩

/-- Claim C6: with all four distortion coefficients zero the
fisheye-undistort builder is a pure radial scaling. theta_d = theta, so
the stored coordinate is u_in = fIn/fOut·(u_out - cx) + cx (and
analogously for v); in particular a pixel exactly at the shared optical
center maps to the input optical center. -/
theorem C6_zero_distortion (cfg : DewarperConfig)
    (h1 : cfg.k1 = 0) (h2 : cfg.k2 = 0) (h3 : cfg.k3 = 0) (h4 : cfg.k4 = 0) (u v : ℕ) :
    fisheyeUndistortPixel cfg u v =
      (cfg.focal_length / (cfg.focal_length * cfg.scale) *
          ((u : ℝ) - cfg.center_x * cfg.input_width) + cfg.center_x * cfg.input_width,
        cfg.focal_length / (cfg.focal_length * cfg.scale) *
          ((v : ℝ) - cfg.center_y * cfg.input_height) + cfg.center_y * cfg.input_height) ∧
    ((u : ℝ) = cfg.center_x * cfg.input_width →
      (v : ℝ) = cfg.center_y * cfg.input_height →
      fisheyeUndistortPixel cfg u v =
        (cfg.center_x * cfg.input_width, cfg.center_y * cfg.input_height)) := by
  have hth : undistortThetaD cfg u v = undistortROut cfg u v := by
    unfold undistortThetaD
    rw [h1, h2, h3, h4]
    ring
  have hs : undistortScaleD cfg u v = 1 := by
    unfold undistortScaleD
    rw [hth]
    split
    · next h =>
      have h0 : (0 : ℝ) < undistortROut cfg u v := lt_trans (by norm_num) h
      exact div_self (ne_of_gt h0)
    · rfl
  have hmain : fisheyeUndistortPixel cfg u v =
      (cfg.focal_length / (cfg.focal_length * cfg.scale) *
          ((u : ℝ) - cfg.center_x * cfg.input_width) + cfg.center_x * cfg.input_width,
        cfg.focal_length / (cfg.focal_length * cfg.scale) *
          ((v : ℝ) - cfg.center_y * cfg.input_height) + cfg.center_y * cfg.input_height) := by
    simp only [fisheyeUndistortPixel]
    rw [hs]
    simp only [undistortXOut, undistortYOut, Prod.mk.injEq]
    constructor
    · ring
    · ring
  refine ⟨hmain, ?_⟩
  intro hu hv
  rw [hmain, hu, hv]
  simp

/-- Claim C6, witness: the radial-scaling formula instantiated on the
concrete zero-distortion configuration at output pixel (3, 5). -/
theorem C6_witness :
    fisheyeUndistortPixel undistortZeroKConfig 3 5 =
      (undistortZeroKConfig.focal_length /
          (undistortZeroKConfig.focal_length * undistortZeroKConfig.scale) *
          (((3 : ℕ) : ℝ) - undistortZeroKConfig.center_x * undistortZeroKConfig.input_width) +
          undistortZeroKConfig.center_x * undistortZeroKConfig.input_width,
        undistortZeroKConfig.focal_length /
          (undistortZeroKConfig.focal_length * undistortZeroKConfig.scale) *
          (((5 : ℕ) : ℝ) - undistortZeroKConfig.center_y * undistortZeroKConfig.input_height) +
          undistortZeroKConfig.center_y * undistortZeroKConfig.input_height) :=
  (C6_zero_distortion undistortZeroKConfig rfl rfl rfl rfl 3 5).1

/-- Claim C8: the division by the normalized radius in the
fisheye-undistort builder is guarded. For every configuration and output
pixel whose normalized radius r_out (= theta) is at or below 1e-8, the
rescale factor is taken as 1.0, and the pixel still receives the defined
sample coordinate (fIn·x_out + cx, fIn·y_out + cy). -/
theorem C8_guarded_division (cfg : DewarperConfig) (u v : ℕ)
    (h : undistortROut cfg u v ≤ 1e-8) :
    undistortScaleD cfg u v = 1 ∧
    fisheyeUndistortPixel cfg u v =
      (cfg.focal_length * undistortXOut cfg u + cfg.center_x * cfg.input_width,
       cfg.focal_length * undistortYOut cfg v + cfg.center_y * cfg.input_height) := by
  have hs : undistortScaleD cfg u v = 1 := by
    unfold undistortScaleD
    rw [if_neg (not_lt.mpr h)]
  refine ⟨hs, ?_⟩
  simp only [fisheyeUndistortPixel]
  rw [hs]
  simp [mul_one]

/-- Claim C8, witness: on the concrete configuration with the optical
center at the origin, output pixel (0, 0) has normalized radius zero, so
the guard fires and the rescale factor is 1. -/
theorem C8_witness :
    undistortScaleD undistortZeroKConfig 0 0 = 1 :=
  (C8_guarded_division undistortZeroKConfig 0 0 (by
    have hx : undistortXOut undistortZeroKConfig 0 = 0 := by
      simp [undistortXOut, undistortZeroKConfig]
    have hy : undistortYOut undistortZeroKConfig 0 = 0 := by
      simp [undistortYOut, undistortZeroKConfig]
    unfold undistortROut
    rw [hx, hy]
    norm_num)).1

/-- Helper: the per-build dispatch of build_lookup_tables agrees with the
per-pixel dispatch projectionPixel. -/
theorem buildLookupTables_eq_buildMap (cfg : DewarperConfig) :
    buildLookupTables cfg = buildMap cfg (projectionPixel cfg) := by
  unfold buildLookupTables buildMap projectionPixel
  cases cfg.projection
  · rfl
  · rfl
  · rfl
  · rfl

/-- Claim C7: for every valid configuration (positive dimensions, field
of view in (0°, 360°], optical center in [0,1]²) and every projection
mode, the built lookup table has exactly output_height rows of exactly
output_width entries each, and every entry is the defined per-pixel value
of the selected builder (no uninitialized entries; in this real-valued
model every such value is a finite pair or the sentinel by
construction). -/
theorem C7_table_shape (cfg : DewarperConfig)
    (_how : 0 < cfg.output_width) (_hoh : 0 < cfg.output_height)
    (_hiw : 0 < cfg.input_width) (_hih : 0 < cfg.input_height)
    (_hfov0 : 0 < cfg.input_fov) (_hfov1 : cfg.input_fov ≤ 360)
    (_hcx0 : 0 ≤ cfg.center_x) (_hcx1 : cfg.center_x ≤ 1)
    (_hcy0 : 0 ≤ cfg.center_y) (_hcy1 : cfg.center_y ≤ 1) :
    (buildLookupTables cfg).length = cfg.output_height ∧
    (∀ row ∈ buildLookupTables cfg, row.length = cfg.output_width) ∧
    (∀ y : ℕ, y < cfg.output_height → ∀ x : ℕ, x < cfg.output_width →
      ((buildLookupTables cfg).getD y []).getD x (0, 0) = projectionPixel cfg x y) := by
  rw [buildLookupTables_eq_buildMap]
  refine ⟨?_, ?_, ?_⟩
  · simp [buildMap]
  · intro row hrow
    simp only [buildMap, List.mem_map] at hrow
    obtain ⟨y, _, rfl⟩ := hrow
    simp
  · intro y hy x hx
    have hylen : y < (buildMap cfg (projectionPixel cfg)).length := by
      simpa [buildMap] using hy
    rw [List.getD_eq_getElem _ _ hylen]
    have h1 : (buildMap cfg (projectionPixel cfg))[y] =
        (List.range cfg.output_width).map (fun x => projectionPixel cfg x y) := by
      simp [buildMap]
    rw [h1]
    have hxlen : x < ((List.range cfg.output_width).map
        (fun x => projectionPixel cfg x y)).length := by
      simpa using hx
    rw [List.getD_eq_getElem _ _ hxlen]
    simp

/-- Claim C7, witness: the table built for the concrete valid 4×3
equirectangular configuration has exactly 3 rows. -/
theorem C7_witness :
    (buildLookupTables validSmallConfig).length = 3 :=
  (C7_table_shape validSmallConfig
    (by decide) (by decide) (by decide) (by decide)
    (show (0 : ℝ) < 180 by norm_num) (show (180 : ℝ) ≤ 360 by norm_num)
    (show (0 : ℝ) ≤ 0.5 by norm_num) (show (0.5 : ℝ) ≤ 1 by norm_num)
    (show (0 : ℝ) ≤ 0.5 by norm_num) (show (0.5 : ℝ) ≤ 1 by norm_num)).1

end FlattenImage
